import Mathlib

/-!
Verification of the zhiqiao_C4 content-collection pipeline.

The development shallowly embeds the Python sources of the repository:
`content_model.py` (the content data model and its JSON-shaped serialization),
`config_manager.py` (categories and author records), the three collector
variants (`youtube_collector.py`, `news_collector.py`, `podcast_collector.py`)
together with `base_collector.py`, the run orchestrator
(`collector_manager.py`), and the snapshot-merge / read-view logic of
`app.py` over snapshots written by `data_storage.py`.

Python `datetime` values are modelled by an explicit record of calendar
fields; `datetime.isoformat` / `datetime.fromisoformat` are modelled at the
character level.  Mutation is modelled by explicit state passing, Python
exceptions by `Except` / `Option`, and the JSON documents that `app.py`
manipulates by records of JSON-typed fields.
-/

/- ===================== Python datetime model ===================== -/

/-- Model of a Python `datetime.datetime` value: the calendar fields the
`datetime` constructor stores (timezone-naive, as used throughout the repo). -/
structure PyDatetime where
  year : Nat
  month : Nat
  day : Nat
  hour : Nat
  minute : Nat
  second : Nat
  microsecond : Nat
deriving Repr, DecidableEq

/-- The range invariant enforced by the Python `datetime` constructor
(`MINYEAR = 1`, `MAXYEAR = 9999`, calendar fields in range), as a Bool. -/
def PyDatetime.validB (d : PyDatetime) : Bool :=
  decide (1 ≤ d.year) && decide (d.year ≤ 9999) &&
  decide (1 ≤ d.month) && decide (d.month ≤ 12) &&
  decide (1 ≤ d.day) && decide (d.day ≤ 31) &&
  decide (d.hour ≤ 23) && decide (d.minute ≤ 59) &&
  decide (d.second ≤ 59) && decide (d.microsecond ≤ 999999)

/-- The decimal digit character for `n % 10`. -/
def digitChar (n : Nat) : Char :=
  match n with
  | 0 => '0' | 1 => '1' | 2 => '2' | 3 => '3' | 4 => '4'
  | 5 => '5' | 6 => '6' | 7 => '7' | 8 => '8' | _ => '9'

/-- Two-digit zero-padded rendering (`%02d`), as characters. -/
def pad2 (n : Nat) : List Char :=
  [digitChar (n / 10 % 10), digitChar (n % 10)]

/-- Four-digit zero-padded rendering (`%04d`), as characters. -/
def pad4 (n : Nat) : List Char :=
  [digitChar (n / 1000 % 10), digitChar (n / 100 % 10), digitChar (n / 10 % 10), digitChar (n % 10)]

/-- Six-digit zero-padded rendering (`%06d`), as characters. -/
def pad6 (n : Nat) : List Char :=
  [digitChar (n / 100000 % 10), digitChar (n / 10000 % 10), digitChar (n / 1000 % 10),
   digitChar (n / 100 % 10), digitChar (n / 10 % 10), digitChar (n % 10)]

/-- Characters of `datetime.isoformat()`: `YYYY-MM-DDTHH:MM:SS`, followed by
`.ffffff` exactly when the microsecond field is non-zero. -/
def PyDatetime.isoformatChars (d : PyDatetime) : List Char :=
  pad4 d.year ++ '-' :: (pad2 d.month ++ '-' :: (pad2 d.day ++ 'T' ::
    (pad2 d.hour ++ ':' :: (pad2 d.minute ++ ':' :: (pad2 d.second ++
      (if d.microsecond = 0 then [] else '.' :: pad6 d.microsecond))))))

/-- Model of Python `datetime.isoformat()`. -/
def PyDatetime.isoformat (d : PyDatetime) : String :=
  String.mk d.isoformatChars

/-- Numeric value of a decimal digit character, `none` on a non-digit. -/
def parseDigit (c : Char) : Option Nat :=
  if 48 ≤ c.toNat ∧ c.toNat ≤ 57 then some (c.toNat - 48) else none

/-- Parse exactly `k` decimal digits, extending the accumulator `acc`. -/
def parseFixed : Nat → Nat → List Char → Option (Nat × List Char)
  | 0, acc, cs => some (acc, cs)
  | _ + 1, _, [] => none
  | k + 1, acc, c :: cs =>
    match parseDigit c with
    | none => none
    | some v => parseFixed k (10 * acc + v) cs

/-- Consume one expected character. -/
def expectChar (c : Char) : List Char → Option (List Char)
  | [] => none
  | a :: rest => if a = c then some rest else none

/-- Model of Python `datetime.fromisoformat` on the strings `isoformat`
produces (`YYYY-MM-DDTHH:MM:SS` with an optional `.ffffff` tail); any other
shape fails, modelling the `ValueError` the library raises. -/
def PyDatetime.fromisoformatChars (cs : List Char) : Option PyDatetime := do
  let (y, cs) ← parseFixed 4 0 cs
  let cs ← expectChar '-' cs
  let (mo, cs) ← parseFixed 2 0 cs
  let cs ← expectChar '-' cs
  let (d, cs) ← parseFixed 2 0 cs
  let cs ← expectChar 'T' cs
  let (h, cs) ← parseFixed 2 0 cs
  let cs ← expectChar ':' cs
  let (mi, cs) ← parseFixed 2 0 cs
  let cs ← expectChar ':' cs
  let (s, cs) ← parseFixed 2 0 cs
  match cs with
  | [] => some ⟨y, mo, d, h, mi, s, 0⟩
  | '.' :: cs => do
    let (us, cs) ← parseFixed 6 0 cs
    match cs with
    | [] => some ⟨y, mo, d, h, mi, s, us⟩
    | _ => none
  | _ => none

/-- Model of Python `datetime.fromisoformat` on strings. -/
def PyDatetime.fromisoformat (s : String) : Option PyDatetime :=
  PyDatetime.fromisoformatChars s.data

/- ===================== config_manager.py ===================== -/

/-- `CategoryType` enum of `config_manager.py`. -/
inductive CategoryType where
  | PODCAST
  | VIDEO
  | NEWS
deriving Repr, DecidableEq

/-- The `.value` display string of each `CategoryType` member. -/
def CategoryType.value : CategoryType → String
  | .PODCAST => "Podcast"
  | .VIDEO => "Video"
  | .NEWS => "News"

/-- Model of the enum call `CategoryType(s)`: the member whose value is `s`,
`none` when the call would raise `ValueError`. -/
def CategoryType.ofValue (s : String) : Option CategoryType :=
  if s = "Podcast" then some .PODCAST
  else if s = "Video" then some .VIDEO
  else if s = "News" then some .NEWS
  else none

/-- `Author` record of `config_manager.py` (validation of its own is not
exercised by the claims; the collectors only read these fields). -/
structure Author where
  name : String
  url : String
  category : CategoryType
  enabled : Bool := true
deriving Repr, DecidableEq

/- ===================== content_model.py: data classes ===================== -/

/-- `ContentItem` dataclass of `content_model.py`.  Python's
`collected_at: datetime = field(default_factory=datetime.now)` reads the
clock, so the model takes the field explicitly. -/
structure ContentItem where
  title : String
  url : String
  author_name : String
  author_url : String
  category : CategoryType
  description : String := ""
  publish_date : Option PyDatetime := none
  thumbnail_url : Option String := none
  cover_image_url : Option String := none
  images : List String := []
  duration : Option String := none
  views : Option Int := none
  tags : List String := []
  collected_at : PyDatetime
  content_id : Option String := none
deriving Repr, DecidableEq

/-- Model of Python `str.strip()`: drop leading and trailing whitespace
(by code point). -/
def pyStrip (s : String) : String :=
  String.mk (((s.data.dropWhile Char.isWhitespace).reverse.dropWhile Char.isWhitespace).reverse)

/-- Model of Python `str.startswith(pre)` (by code point). -/
def pyStartsWith (s pre : String) : Bool :=
  pre.data.isPrefixOf s.data

/-- The `category` argument of the `ContentItem` constructor may be an enum
member or a plain string (normalized by `__post_init__`). -/
inductive CategoryArg where
  | enum (c : CategoryType)
  | str (s : String)
deriving Repr, DecidableEq

/-- Model of constructing a `ContentItem`, running `__post_init__`
(content_model.py lines 40-51): empty/blank title, non-http(s) url and
empty/blank author name raise `ValueError`; a string category is normalized
through `CategoryType(...)` (raising on an unknown value). -/
def mkContentItem (title url author_name author_url : String) (category : CategoryArg)
    (description : String) (publish_date : Option PyDatetime)
    (thumbnail_url cover_image_url : Option String) (images : List String)
    (duration : Option String) (views : Option Int) (tags : List String)
    (collected_at : PyDatetime) (content_id : Option String) :
    Except String ContentItem :=
  if title = "" ∨ pyStrip title = "" then .error "标题不能为空"
  else if url = "" ∨ ¬(pyStartsWith url "http://" ∨ pyStartsWith url "https://") then
    .error ("无效的内容URL: " ++ url)
  else if author_name = "" ∨ pyStrip author_name = "" then .error "作者名称不能为空"
  else
    match category with
    | .enum c =>
      .ok { title, url, author_name, author_url, category := c, description, publish_date,
            thumbnail_url, cover_image_url, images, duration, views, tags, collected_at,
            content_id }
    | .str s =>
      match CategoryType.ofValue s with
      | some c =>
        .ok { title, url, author_name, author_url, category := c, description, publish_date,
              thumbnail_url, cover_image_url, images, duration, views, tags, collected_at,
              content_id }
      | none => .error ("ValueError: " ++ s ++ " is not a valid CategoryType")

/-- Validity of a `ContentItem` value: the §3 invariants its constructor
enforces, plus in-range datetimes (which the `datetime` library enforces). -/
def ContentItem.validB (x : ContentItem) : Bool :=
  decide (pyStrip x.title ≠ "") &&
  (pyStartsWith x.url "http://" || pyStartsWith x.url "https://") &&
  decide (pyStrip x.author_name ≠ "") &&
  x.collected_at.validB &&
  (match x.publish_date with
   | none => true
   | some d => d.validB)

/-- The JSON-shaped mapping `ContentItem.to_dict` produces: the dataclass
fields with the category as its display string and datetimes as ISO-8601
strings (`publish_date` stays `null` when absent). -/
structure ContentItemDict where
  title : String
  url : String
  author_name : String
  author_url : String
  category : String
  description : String
  publish_date : Option String
  thumbnail_url : Option String
  cover_image_url : Option String
  images : List String
  duration : Option String
  views : Option Int
  tags : List String
  collected_at : String
  content_id : Option String
deriving Repr, DecidableEq

/-- Model of `ContentItem.to_dict` (content_model.py lines 53-67):
`asdict(self)`, then `category` replaced by its `.value` and the two datetime
fields by `isoformat()` strings (`collected_at` is always a datetime and
hence always converted). -/
def ContentItem.to_dict (x : ContentItem) : ContentItemDict :=
  { title := x.title
    url := x.url
    author_name := x.author_name
    author_url := x.author_url
    category := x.category.value
    description := x.description
    publish_date := x.publish_date.map PyDatetime.isoformat
    thumbnail_url := x.thumbnail_url
    cover_image_url := x.cover_image_url
    images := x.images
    duration := x.duration
    views := x.views
    tags := x.tags
    collected_at := x.collected_at.isoformat
    content_id := x.content_id }

/-- Model of `ContentItem.from_dict` (content_model.py lines 69-86): a string
category becomes the enum member (`ValueError` on an unknown value), string
datetimes go through `fromisoformat` (`ValueError` on a malformed string),
then `cls(**data)` constructs the item, re-running `__post_init__`. -/
def ContentItem.from_dict (data : ContentItemDict) : Except String ContentItem :=
  match CategoryType.ofValue data.category with
  | none => Except.error ("ValueError: " ++ data.category ++ " is not a valid CategoryType")
  | some category =>
    match
      (match data.publish_date with
       | none => Except.ok none
       | some s =>
         match PyDatetime.fromisoformat s with
         | some d => Except.ok (some d)
         | none => Except.error ("ValueError: Invalid isoformat string: " ++ s) :
        Except String (Option PyDatetime)) with
    | Except.error e => Except.error e
    | Except.ok publish_date =>
      match PyDatetime.fromisoformat data.collected_at with
      | none => Except.error ("ValueError: Invalid isoformat string: " ++ data.collected_at)
      | some collected_at =>
        mkContentItem data.title data.url data.author_name data.author_url (.enum category)
          data.description publish_date data.thumbnail_url data.cover_image_url data.images
          data.duration data.views data.tags collected_at data.content_id

/-- `CollectionResult` dataclass of `content_model.py` (lines 105-115).  It
defines no `__post_init__`: the dataclass performs no validation, so plain
construction is the (always succeeding) constructor of this structure. -/
structure CollectionResult where
  author_name : String
  author_url : String
  category : CategoryType
  success : Bool
  items : List ContentItem := []
  error_message : Option String := none
  collected_at : PyDatetime
deriving Repr, DecidableEq

/-- The JSON-shaped mapping `CollectionResult.to_dict` produces, including
the derived `total_items` entry. -/
structure CollectionResultDict where
  author_name : String
  author_url : String
  category : String
  success : Bool
  items : List ContentItemDict
  error_message : Option String
  collected_at : String
  total_items : Nat
deriving Repr, DecidableEq

/-- Model of `CollectionResult.to_dict` (content_model.py lines 117-128). -/
def CollectionResult.to_dict (r : CollectionResult) : CollectionResultDict :=
  { author_name := r.author_name
    author_url := r.author_url
    category := r.category.value
    success := r.success
    items := r.items.map ContentItem.to_dict
    error_message := r.error_message
    collected_at := r.collected_at.isoformat
    total_items := r.items.length }

/-- The parameter names the `CollectionResult` dataclass constructor accepts
(its fields, content_model.py lines 109-115). -/
def collectionResultFieldNames : List String :=
  ["author_name", "author_url", "category", "success", "items", "error_message", "collected_at"]

/-- The keys of the mapping `CollectionResult.to_dict` returns, in source
order (content_model.py lines 119-127). -/
def collectionResultToDictKeys : List String :=
  ["author_name", "author_url", "category", "success", "items", "error_message", "collected_at",
   "total_items"]

/- ===================== collectors: feed view ===================== -/

/-- The collector-visible view of one parsed feed entry (the fields the three
`_parse_entry` implementations read from a `feedparser` entry).  Library
calls whose results the code consumes as data are supplied as fields:
`published_parsed` / `updated_parsed` stand for the datetime the code builds
from the corresponding time-struct (`none` when the attribute is missing,
falsy, or the `datetime` call raises); `published_fallback` stands for
`dateutil.parser.parse(entry.published)` (`none` when missing or
unparsable); `media_thumbnail_url` / `media_content_image_url` stand for the
url extracted from `media_thumbnail` / `media_content` (`none` when absent);
`entry_image` stands for the href/string of the entry's `image` attribute;
`summary_img_abs` stands for the first `<img src>` of the summary html,
already resolved to an absolute url (news_collector.py lines 174-185). -/
structure Entry where
  title : Option String := none
  link : Option String := none
  summary : Option String := none
  description : Option String := none
  content : Option (List String) := none
  id : Option String := none
  published_parsed : Option PyDatetime := none
  updated_parsed : Option PyDatetime := none
  published_fallback : Option PyDatetime := none
  media_thumbnail_url : Option String := none
  media_content_image_url : Option String := none
  entry_image : Option String := none
  summary_img_abs : Option String := none
deriving Repr, DecidableEq

/-- A parsed feed: its entries plus the channel-level image
(`feed.feed.image`, used by the podcast collector's third fallback). -/
structure Feed where
  entries : List Entry := []
  feed_image : Option String := none
deriving Repr, DecidableEq

/-- Outcome of `feedparser.parse(...)` inside a collector's `try` block:
either the whole fetch/parse raises, or it yields a feed. -/
inductive FetchOutcome where
  | raise (msg : String)
  | ok (feed : Feed)
deriving Repr, DecidableEq

/- ===================== base_collector.py ===================== -/

/-- Model of `BaseCollector._create_success_result` (base_collector.py lines
63-79); `now` stands for the `datetime.now()` default of `collected_at`. -/
def create_success_result (author : Author) (items : List ContentItem)
    (now : PyDatetime) : CollectionResult :=
  { author_name := author.name
    author_url := author.url
    category := author.category
    success := true
    items := items
    error_message := none
    collected_at := now }

/-- Model of `BaseCollector._create_error_result` (base_collector.py lines
81-97). -/
def create_error_result (author : Author) (error_message : String)
    (now : PyDatetime) : CollectionResult :=
  { author_name := author.name
    author_url := author.url
    category := author.category
    success := false
    items := []
    error_message := some error_message
    collected_at := now }

/- ===================== html / url helpers used by collectors ===================== -/

/-- Character-level tag stripper modelling
`BeautifulSoup(html, "html.parser").get_text()`: markup between `<` and `>`
is dropped; on tag-free text it is the identity. -/
def stripTags : List Char → Bool → List Char
  | [], _ => []
  | c :: cs, inTag =>
    if c = '<' then stripTags cs true
    else if c = '>' then stripTags cs false
    else if inTag then stripTags cs true
    else c :: stripTags cs false

/-- Model of `BeautifulSoup(s, "html.parser").get_text()`. -/
def bs4_get_text (s : String) : String :=
  String.mk (stripTags s.data false)

/-- Is `c` in the character class `[0-9A-Za-z_-]` of the video-id regexes. -/
def isYtIdChar (c : Char) : Bool :=
  ('0' ≤ c && c ≤ '9') || ('A' ≤ c && c ≤ 'Z') || ('a' ≤ c && c ≤ 'z') || c = '_' || c = '-'

/-- Take exactly 11 video-id characters, if present. -/
def takeYtId (cs : List Char) (k : Nat) (acc : List Char) : Option String :=
  match k with
  | 0 => some (String.mk acc.reverse)
  | k + 1 =>
    match cs with
    | [] => none
    | c :: rest => if isYtIdChar c then takeYtId rest k (c :: acc) else none

/-- Scan for the leftmost `v=` or `/` followed by 11 id characters. -/
def ytIdScan : List Char → Option String
  | [] => none
  | 'v' :: '=' :: rest =>
    match takeYtId rest 11 [] with
    | some vid => some vid
    | none => ytIdScan ('=' :: rest)
  | '/' :: rest =>
    match takeYtId rest 11 [] with
    | some vid => some vid
    | none => ytIdScan rest
  | _ :: rest => ytIdScan rest

/-- Model of `YouTubeCollector._extract_video_id` (youtube_collector.py lines
232-253): the leftmost 11-character id following `v=` or `/` (the three
regexes reduce to this on the urls the feed yields). -/
def extract_video_id (url : String) : Option String :=
  ytIdScan url.data

/- ===================== news_collector.py ===================== -/

/-- Description source selection of `NewsCollector._parse_entry`
(news_collector.py lines 126-133): `summary`, else `description`, else the
first `content` value, else the empty string. -/
def news_pick_description (e : Entry) : String :=
  match e.summary with
  | some s => s
  | none =>
    match e.description with
    | some s => s
    | none =>
      match e.content with
      | some (v :: _) => v
      | some [] => ""
      | none => ""

/-- Description cleaning of `NewsCollector._parse_entry` (news_collector.py
lines 135-141): when non-empty, strip html, strip whitespace, and truncate to
500 characters with a `...` marker. -/
def news_clean_description (description : String) : String :=
  if description = "" then description
  else
    let text := pyStrip (bs4_get_text description)
    if text.length > 500 then String.mk (text.data.take 500) ++ "..." else text

/-- End-to-end description policy of the news collector. -/
def news_entry_description (e : Entry) : String :=
  news_clean_description (news_pick_description e)

/-- Publish-date derivation of `NewsCollector._parse_entry` (lines 143-156):
`published_parsed`, else `updated_parsed`. -/
def news_publish_date (e : Entry) : Option PyDatetime :=
  match e.published_parsed with
  | some d => some d
  | none => e.updated_parsed

/-- Cover-image derivation of `NewsCollector._parse_entry` (lines 158-185):
media thumbnail, else media content image, else first summary image. -/
def news_cover_image (e : Entry) : Option String :=
  match e.media_thumbnail_url with
  | some u => some u
  | none =>
    match e.media_content_image_url with
    | some u => some u
    | none => e.summary_img_abs

/-- Model of `NewsCollector._parse_entry` (news_collector.py lines 105-200).
A missing/blank title or link yields `none`; a `ValueError` escaping the
`ContentItem` constructor is caught by the per-entry handler in `collect`
and likewise drops the entry (`Except.toOption`). -/
def news_parse_entry (author : Author) (e : Entry) (now : PyDatetime) :
    Option ContentItem :=
  let title := pyStrip (e.title.getD "")
  if title = "" then none
  else
    let link := pyStrip (e.link.getD "")
    if link = "" then none
    else
      (mkContentItem title link author.name author.url (.enum .NEWS)
        (news_entry_description e) (news_publish_date e) none (news_cover_image e) [] none
        none [] now (some (e.id.getD link))).toOption

/-- Model of `NewsCollector.collect` (news_collector.py lines 69-103). -/
def news_collect (author : Author) (fetch : FetchOutcome) (max_items : Nat)
    (now : PyDatetime) : CollectionResult :=
  match fetch with
  | .raise e => create_error_result author ("采集失败: " ++ e) now
  | .ok feed =>
    if feed.entries.isEmpty then create_error_result author "Feed 中没有找到任何条目" now
    else
      let items := (feed.entries.take max_items).filterMap
        (fun e => news_parse_entry author e now)
      if items.isEmpty then create_error_result author "未能解析任何有效的新闻条目" now
      else create_success_result author items now

/- ===================== podcast_collector.py ===================== -/

/-- Description source selection of `PodcastCollector._parse_entry`
(podcast_collector.py lines 104-111), same field order as the news variant. -/
def podcast_pick_description (e : Entry) : String :=
  match e.summary with
  | some s => s
  | none =>
    match e.description with
    | some s => s
    | none =>
      match e.content with
      | some (v :: _) => v
      | some [] => ""
      | none => ""

/-- Description cleaning of `PodcastCollector._parse_entry` (lines 113-120). -/
def podcast_clean_description (description : String) : String :=
  if description = "" then description
  else
    let text := pyStrip (bs4_get_text description)
    if text.length > 500 then String.mk (text.data.take 500) ++ "..." else text

/-- End-to-end description policy of the podcast collector. -/
def podcast_entry_description (e : Entry) : String :=
  podcast_clean_description (podcast_pick_description e)

/-- Cover-image derivation of `PodcastCollector._parse_entry` (lines
131-152): entry image, else media thumbnail, else the channel image. -/
def podcast_cover_image (e : Entry) (feed : Feed) : Option String :=
  match e.entry_image with
  | some u => some u
  | none =>
    match e.media_thumbnail_url with
    | some u => some u
    | none => feed.feed_image

/-- Model of `PodcastCollector._parse_entry` (podcast_collector.py lines
83-167). -/
def podcast_parse_entry (author : Author) (feed : Feed) (e : Entry)
    (now : PyDatetime) : Option ContentItem :=
  let title := pyStrip (e.title.getD "")
  if title = "" then none
  else
    let link := pyStrip (e.link.getD "")
    if link = "" then none
    else
      (mkContentItem title link author.name author.url (.enum .PODCAST)
        (podcast_entry_description e) e.published_parsed none (podcast_cover_image e feed) []
        none none [] now (some (e.id.getD link))).toOption

/-- Model of `PodcastCollector.collect` (podcast_collector.py lines 47-81). -/
def podcast_collect (author : Author) (fetch : FetchOutcome) (max_items : Nat)
    (now : PyDatetime) : CollectionResult :=
  match fetch with
  | .raise e => create_error_result author ("采集失败: " ++ e) now
  | .ok feed =>
    if feed.entries.isEmpty then create_error_result author "RSS Feed 中没有找到任何条目" now
    else
      let items := (feed.entries.take max_items).filterMap
        (fun e => podcast_parse_entry author feed e now)
      if items.isEmpty then create_error_result author "未能解析任何有效的 Podcast 条目" now
      else create_success_result author items now

/- ===================== youtube_collector.py ===================== -/

/-- Model of `YouTubeCollector._parse_entry` (youtube_collector.py lines
169-230).  The description is `entry.get('summary', '').strip()` — taken
verbatim, with no html stripping and no truncation.  A `ValueError` from the
`ContentItem` constructor is caught by this method's own handler, yielding
`none`. -/
def youtube_parse_entry (author : Author) (e : Entry) (now : PyDatetime) :
    Option ContentItem :=
  let title := pyStrip (e.title.getD "")
  let url := e.link.getD ""
  let description := pyStrip (e.summary.getD "")
  let publish_date :=
    match e.published_parsed with
    | some d => some d
    | none => e.published_fallback
  let thumbnail :=
    match e.media_thumbnail_url with
    | some u => some u
    | none =>
      (extract_video_id url).map
        (fun vid => "https://i.ytimg.com/vi/" ++ vid ++ "/maxresdefault.jpg")
  (mkContentItem title url author.name author.url (.enum .VIDEO) description publish_date
    thumbnail none [] none none [] now (extract_video_id url)).toOption

/-- Model of `YouTubeCollector.collect` (youtube_collector.py lines 133-167).
`rss_url` is the feed endpoint resolved at construction (`none` when the
channel id could not be extracted).  Note: unlike the news and podcast
variants, this method returns a *success* result even when `items` is empty. -/
def youtube_collect (author : Author) (rss_url : Option String) (fetch : FetchOutcome)
    (max_items : Nat) (now : PyDatetime) : CollectionResult :=
  match rss_url with
  | none => create_error_result author "无法获取频道ID，请检查URL格式" now
  | some _ =>
    match fetch with
    | .raise e => create_error_result author ("采集失败: " ++ e) now
    | .ok feed =>
      if feed.entries.isEmpty then create_error_result author "未找到任何视频内容" now
      else
        create_success_result author
          ((feed.entries.take max_items).filterMap (fun e => youtube_parse_entry author e now))
          now

/- ===================== collector_manager.py ===================== -/

/-- Outcome of one `collector.collect(max_items)` call as observed by the
manager: a returned result, or an exception escaping the collector. -/
inductive CollectCall where
  | ok (r : CollectionResult)
  | exn (msg : String)
deriving Repr, DecidableEq

/-- One entry of the manager's `collectors` dict: the author record the
collector was built from, and this run's `collect` outcome. -/
structure CollectorEntry where
  author : Author
  call : CollectCall
deriving Repr, DecidableEq

/-- Model of `CollectorManager.collect_all` (collector_manager.py lines
39-91): iterate the collectors in registry order, appending each returned
result; an exception is caught and converted into a failed
`CollectionResult` for that author (`collected_at` defaulting to
`datetime.now()`, passed as `now`). -/
def collect_all (collectors : List CollectorEntry) (now : PyDatetime) :
    List CollectionResult :=
  collectors.map (fun c =>
    match c.call with
    | .ok r => r
    | .exn e =>
      { author_name := c.author.name
        author_url := c.author.url
        category := c.author.category
        success := false
        items := []
        error_message := some e
        collected_at := now })

/- ===================== app.py: snapshot documents ===================== -/

/-- The JSON view of one content item as `app.py` reads it back from a
snapshot file.  `publish_date` is an ISO string or `null` (the serializer
always writes the key, `null` when the item has no date); the remaining keys
of `ContentItem.to_dict` are not read by the merge/sort logic and are left
out of the model. -/
structure ItemD where
  title : String := ""
  url : String := ""
  publish_date : Option String := none
  category : String := ""
  collected_at : String := ""
deriving Repr, DecidableEq

/-- The JSON view of one `CollectionResult.to_dict` document as read back by
`app.py`.  `from_history` / `history_collected_at` are `none` while the keys
are absent (the serializer never writes them; the merge adds them). -/
structure ResultD where
  author_name : String
  author_url : String := ""
  category : String := ""
  success : Bool
  items : List ItemD := []
  error_message : Option String := none
  collected_at : String := ""
  total_items : Int := 0
  from_history : Option Bool := none
  history_collected_at : Option String := none
deriving Repr, DecidableEq

/-- The JSON view of one snapshot file written by `DataStorage.save_results`
(data_storage.py lines 51-58). -/
structure SnapshotD where
  collected_at : String := ""
  total_authors : Int := 0
  successful_authors : Int := 0
  failed_authors : Int := 0
  total_items : Int := 0
  results : List ResultD := []
deriving Repr, DecidableEq

/-- The `failed_authors` set built by `load_latest_data` (app.py lines
40-47), modelled as a list used with set semantics (membership, removal,
emptiness — duplicates are harmless for all three). -/
def failedAuthorsOf (rs : List ResultD) : List String :=
  (rs.filter (fun r => !r.success)).map (fun r => r.author_name)

/-- One iteration of the inner loop of `load_latest_data` (app.py lines
61-82) over a single historical result `r`: if `r`'s author is still pending
and `r` succeeded, replace the author's entries in the baseline's result
list by `r` tagged `from_history` / `history_collected_at`, bump the
aggregate counters, and resolve the author. -/
def mergeStep (old_collected_at : String) (acc : SnapshotD × List String) (r : ResultD) :
    SnapshotD × List String :=
  let ld := acc.1
  let failed := acc.2
  if r.author_name ∈ failed ∧ r.success = true then
    ({ ld with
        results := ld.results.filter (fun x => x.author_name != r.author_name) ++
          [{ r with from_history := some true, history_collected_at := some old_collected_at }]
        successful_authors := ld.successful_authors + 1
        failed_authors := ld.failed_authors - 1
        total_items := ld.total_items + r.items.length },
     failed.filter (fun a => a != r.author_name))
  else acc

/-- Process one readable historical snapshot (the inner `for result in
old_data.get('results', [])` loop). -/
def processOld (ld : SnapshotD) (failed : List String) (old : SnapshotD) :
    SnapshotD × List String :=
  old.results.foldl (mergeStep old.collected_at) (ld, failed)

/-- The walk over the historical snapshot files (app.py lines 52-58), newest
to oldest: stop as soon as no failed author is pending; a file whose
`load_results` returned `None` (missing or unreadable, `none` here) is
skipped. -/
def mergeLoop (ld : SnapshotD) (failed : List String) :
    List (Option SnapshotD) → SnapshotD
  | [] => ld
  | old? :: rest =>
    if failed.isEmpty then ld
    else
      match old? with
      | none => mergeLoop ld failed rest
      | some old =>
        let p := processOld ld failed old
        mergeLoop p.1 p.2 rest

/-- Model of `load_latest_data` (app.py lines 17-84).  `collection_files` is
the newest-first list of `collection_*.json` files, each entry being the
document `DataStorage.load_results` yields for it (`none` for a missing or
unreadable file). -/
def load_latest_data (collection_files : List (Option SnapshotD)) : Option SnapshotD :=
  match collection_files with
  | [] => none
  | latest :: rest =>
    match latest with
    | none => none
    | some latest_data =>
      let failed_authors := failedAuthorsOf latest_data.results
      if failed_authors.isEmpty then some latest_data
      else some (mergeLoop latest_data failed_authors rest)

/- ===================== app.py: read view (flatten + sort) ===================== -/

/-- The sort key `lambda x: x.get('publish_date', '')` of app.py lines
136/182: snapshots written by `DataStorage` always contain the key, so the
value is the ISO string, or Python `None` for a dateless item (the `''`
default would only apply to a missing key). -/
def sortKey (it : ItemD) : Option String := it.publish_date

/-- Python `<` on two sort keys: two strings compare lexicographically; any
comparison involving `None` raises `TypeError`. -/
def pyKeyLt : Option String → Option String → Except Unit Bool
  | some a, some b => .ok (decide (a < b))
  | _, _ => .error ()

/-- Stable descending insertion of one item, raising whenever Python's sort
would compare an uncomparable pair of keys. -/
def pyInsertDesc (x : ItemD) : List ItemD → Except Unit (List ItemD)
  | [] => .ok [x]
  | y :: ys => do
    let later ← pyKeyLt (sortKey y) (sortKey x)
    if later then pure (x :: y :: ys)
    else do
      let r ← pyInsertDesc x ys
      pure (y :: r)

/-- Model of `all_items.sort(key=lambda x: x.get('publish_date', ''),
reverse=True)`: a stable descending sort by key; with two or more elements it
raises `TypeError` exactly when Python's sort would compare a `None` key. -/
def pySortDesc (l : List ItemD) : Except Unit (List ItemD) :=
  l.foldlM (fun acc x => pyInsertDesc x acc) []

/-- Flattening step shared by `index` and `api_items` (app.py lines 127-133
and 174-179): the items of every successful result, in result order. -/
def itemsOfView (m : SnapshotD) : List ItemD :=
  (m.results.filter (fun r => r.success)).foldr (fun r acc => r.items ++ acc) []

/-- The item list `/api/items` (and the index page) builds: merge the
snapshots, flatten the successful results' items, and sort by publish date
descending (the relative-time annotation reads the clock and adds a display
key; it does not affect the fields modelled here). -/
def api_items_items (collection_files : List (Option SnapshotD)) :
    Except Unit (List ItemD) :=
  match load_latest_data collection_files with
  | none => .ok []
  | some data => pySortDesc (itemsOfView data)

/- ===================== proof-level helper definitions ===================== -/

/-- The results of an optionally-loaded snapshot (`[]` for an unreadable
file, which contributes no backfill candidates). -/
def optResults : Option SnapshotD → List ResultD
  | none => []
  | some s => s.results

/-- The author names of a result list, in order. -/
def authorNames (rs : List ResultD) : List String :=
  rs.map (fun r => r.author_name)

/-- Invariant carried through the merge walk relative to the baseline `b`:
the working view keeps one result per baseline author (its author-name list
is a permutation of the baseline's and stays duplicate-free), never touches
`total_authors`, preserves `successful_authors + failed_authors`, and every
pending failed author still owns a result. -/
def MergeInv (b : SnapshotD) (acc : SnapshotD × List String) : Prop :=
  (authorNames acc.1.results).Perm (authorNames b.results) ∧
  (authorNames acc.1.results).Nodup ∧
  acc.1.total_authors = b.total_authors ∧
  acc.1.successful_authors + acc.1.failed_authors = b.successful_authors + b.failed_authors ∧
  ∀ a ∈ acc.2, a ∈ authorNames acc.1.results

/- ===================== concrete instances ===================== -/

/-- A valid content item used by concrete instantiations. -/
def itemEx : ContentItem :=
  { title := "Hello World"
    url := "https://example.com/a"
    author_name := "Ada"
    author_url := "https://example.com"
    category := .VIDEO
    description := "a demo"
    publish_date := some ⟨2025, 11, 10, 10, 0, 0, 0⟩
    collected_at := ⟨2025, 11, 10, 11, 0, 0, 500⟩ }

/-- A valid successful collection result. -/
def resultEx : CollectionResult :=
  { author_name := "Ada"
    author_url := "https://example.com"
    category := .VIDEO
    success := true
    items := [itemEx]
    error_message := none
    collected_at := ⟨2025, 11, 10, 12, 0, 0, 0⟩ }

/-- A `CollectionResult` that violates the §3 invariants (`success = false`
with a non-empty item list and no error message); the dataclass constructs
it without complaint. -/
def badResult : CollectionResult :=
  { author_name := "Bob"
    author_url := "https://example.com"
    category := .NEWS
    success := false
    items := [itemEx]
    error_message := none
    collected_at := ⟨2025, 1, 1, 0, 0, 0, 0⟩ }

/-- A video author. -/
def authorEx : Author :=
  { name := "Chan", url := "https://www.youtube.com/@chan", category := .VIDEO }

/-- A news author. -/
def authorNewsEx : Author :=
  { name := "Nell", url := "https://example.com", category := .NEWS }

/-- A fixed clock value standing for `datetime.now()`. -/
def nowEx : PyDatetime := ⟨2025, 11, 10, 12, 0, 0, 0⟩

/-- A feed whose single entry lacks a title, so no entry survives mapping. -/
def noTitleFeed : Feed :=
  { entries := [{ link := some "https://www.youtube.com/watch?v=abcdefghijk" }] }

/-- The YouTube collect call on `noTitleFeed`. -/
def c4YtResult : CollectionResult :=
  youtube_collect authorEx (some "https://www.youtube.com/feeds/videos.xml?channel_id=UCx")
    (.ok noTitleFeed) 10 nowEx

/-- A 501-character plain-text summary. -/
def longSummary : String := String.mk (List.replicate 501 'a')

/-- An entry whose summary exceeds the 500-character truncation threshold. -/
def longEntry : Entry :=
  { title := some "T", link := some "https://example.com/p", summary := some longSummary }

/-- A manager run: one collector returns a result, one raises. -/
def csEx : List CollectorEntry :=
  [{ author := authorEx, call := .ok resultEx },
   { author := authorNewsEx, call := .exn "boom" }]

/-- Baseline snapshot results: author X succeeded with two items. -/
def xSuccD : ResultD :=
  { author_name := "X", success := true,
    items := [{ title := "x1", publish_date := some "2025-11-10T07:00:00",
                category := "Video", collected_at := "2025-11-10T08:00:00" },
              { title := "x2", publish_date := some "2025-11-09T07:00:00",
                category := "Video", collected_at := "2025-11-10T08:00:00" }],
    collected_at := "2025-11-10T08:00:00", total_items := 2 }

/-- Baseline snapshot results: author Y failed. -/
def yFailD : ResultD :=
  { author_name := "Y", success := false, error_message := some "连接超时",
    collected_at := "2025-11-10T08:00:00" }

/-- Historical snapshot results: author Y succeeded with three items. -/
def yHistD : ResultD :=
  { author_name := "Y", success := true,
    items := [{ title := "y1", publish_date := some "2025-11-08T07:00:00",
                category := "Podcast", collected_at := "2025-11-09T08:00:00" },
              { title := "y2", publish_date := none,
                category := "Podcast", collected_at := "2025-11-09T08:00:00" },
              { title := "y3", publish_date := some "2025-11-07T07:00:00",
                category := "Podcast", collected_at := "2025-11-09T08:00:00" }],
    collected_at := "2025-11-09T08:00:00", total_items := 3 }

/-- The newest snapshot: X success (2 items), Y failed. -/
def baseSnap : SnapshotD :=
  { collected_at := "2025-11-10T08:00:00", total_authors := 2, successful_authors := 1,
    failed_authors := 1, total_items := 2, results := [xSuccD, yFailD] }

/-- An older snapshot holding Y's successful result. -/
def oldSnap : SnapshotD :=
  { collected_at := "2025-11-09T08:00:00", total_authors := 2, successful_authors := 2,
    failed_authors := 0, total_items := 5, results := [yHistD] }

/-- An older snapshot in which Y failed as well (no backfill available). -/
def oldFailSnap : SnapshotD :=
  { collected_at := "2025-11-08T08:00:00", total_authors := 2, successful_authors := 1,
    failed_authors := 1, total_items := 0,
    results := [{ author_name := "Y", success := false, error_message := some "超时",
                  collected_at := "2025-11-08T08:00:00" }] }

/-- Two items carrying no publish date, exactly as the serializer writes
them (`publish_date: null`). -/
def datelessItem1 : ItemD :=
  { title := "p1", publish_date := none, category := "News",
    collected_at := "2025-11-10T08:00:00" }

/-- A second dateless item. -/
def datelessItem2 : ItemD :=
  { title := "p2", publish_date := none, category := "News",
    collected_at := "2025-11-10T08:00:00" }

/-- A snapshot whose successful result holds two dateless items. -/
def snapC9 : SnapshotD :=
  { collected_at := "2025-11-10T08:00:00", total_authors := 1, successful_authors := 1,
    failed_authors := 0, total_items := 2,
    results := [{ author_name := "N", success := true,
                  items := [datelessItem1, datelessItem2],
                  collected_at := "2025-11-10T08:00:00", total_items := 2 }] }

/- ===================== lemma section (datetime) ===================== -/

theorem parseDigit_digitChar (k : Nat) (hk : k < 10) :
    parseDigit (digitChar k) = some k := by
  interval_cases k <;> rfl

theorem parseFixed_pad2 (n : Nat) (hn : n < 100) (acc : Nat) (rest : List Char) :
    parseFixed 2 acc (pad2 n ++ rest) = some (100 * acc + n, rest) := by
  have h1 : n / 10 % 10 < 10 := Nat.mod_lt _ (by omega)
  have h2 : n % 10 < 10 := Nat.mod_lt _ (by omega)
  simp only [pad2, List.cons_append, List.nil_append, parseFixed,
    parseDigit_digitChar _ h1, parseDigit_digitChar _ h2]
  congr 2
  omega

theorem parseFixed_pad4 (n : Nat) (hn : n < 10000) (rest : List Char) :
    parseFixed 4 0 (pad4 n ++ rest) = some (n, rest) := by
  have h1 : n / 1000 % 10 < 10 := Nat.mod_lt _ (by omega)
  have h2 : n / 100 % 10 < 10 := Nat.mod_lt _ (by omega)
  have h3 : n / 10 % 10 < 10 := Nat.mod_lt _ (by omega)
  have h4 : n % 10 < 10 := Nat.mod_lt _ (by omega)
  simp only [pad4, List.cons_append, List.nil_append, parseFixed,
    parseDigit_digitChar _ h1, parseDigit_digitChar _ h2,
    parseDigit_digitChar _ h3, parseDigit_digitChar _ h4]
  congr 2
  omega

theorem parseFixed_pad6 (n : Nat) (hn : n < 1000000) (rest : List Char) :
    parseFixed 6 0 (pad6 n ++ rest) = some (n, rest) := by
  have h1 : n / 100000 % 10 < 10 := Nat.mod_lt _ (by omega)
  have h2 : n / 10000 % 10 < 10 := Nat.mod_lt _ (by omega)
  have h3 : n / 1000 % 10 < 10 := Nat.mod_lt _ (by omega)
  have h4 : n / 100 % 10 < 10 := Nat.mod_lt _ (by omega)
  have h5 : n / 10 % 10 < 10 := Nat.mod_lt _ (by omega)
  have h6 : n % 10 < 10 := Nat.mod_lt _ (by omega)
  simp only [pad6, List.cons_append, List.nil_append, parseFixed,
    parseDigit_digitChar _ h1, parseDigit_digitChar _ h2,
    parseDigit_digitChar _ h3, parseDigit_digitChar _ h4,
    parseDigit_digitChar _ h5, parseDigit_digitChar _ h6]
  congr 2
  omega

theorem expectChar_cons (c : Char) (rest : List Char) :
    expectChar c (c :: rest) = some rest := by
  simp [expectChar]

theorem parseFixed_pad2_nil (n : Nat) (hn : n < 100) (acc : Nat) :
    parseFixed 2 acc (pad2 n) = some (100 * acc + n, []) := by
  simpa using parseFixed_pad2 n hn acc []

theorem parseFixed_pad6_nil (n : Nat) (hn : n < 1000000) :
    parseFixed 6 0 (pad6 n) = some (n, []) := by
  simpa using parseFixed_pad6 n hn []

/-- Parsing inverts printing for every datetime the library can construct. -/
theorem fromisoformat_isoformat (d : PyDatetime) (hd : d.validB = true) :
    PyDatetime.fromisoformat d.isoformat = some d := by
  have hy : d.year < 10000 := by
    simp only [PyDatetime.validB, Bool.and_eq_true, decide_eq_true_eq] at hd; omega
  have hmo : d.month < 100 := by
    simp only [PyDatetime.validB, Bool.and_eq_true, decide_eq_true_eq] at hd; omega
  have hday : d.day < 100 := by
    simp only [PyDatetime.validB, Bool.and_eq_true, decide_eq_true_eq] at hd; omega
  have hh : d.hour < 100 := by
    simp only [PyDatetime.validB, Bool.and_eq_true, decide_eq_true_eq] at hd; omega
  have hmi : d.minute < 100 := by
    simp only [PyDatetime.validB, Bool.and_eq_true, decide_eq_true_eq] at hd; omega
  have hs : d.second < 100 := by
    simp only [PyDatetime.validB, Bool.and_eq_true, decide_eq_true_eq] at hd; omega
  have hus : d.microsecond < 1000000 := by
    simp only [PyDatetime.validB, Bool.and_eq_true, decide_eq_true_eq] at hd; omega
  show PyDatetime.fromisoformatChars d.isoformatChars = some d
  obtain ⟨y, mo, da, h, mi, s, us⟩ := d
  simp only at hy hmo hday hh hmi hs hus
  by_cases hz : us = 0
  · subst hz
    simp [PyDatetime.fromisoformatChars, PyDatetime.isoformatChars,
      parseFixed_pad4 _ hy, parseFixed_pad2 _ hmo, parseFixed_pad2 _ hday,
      parseFixed_pad2 _ hh, parseFixed_pad2 _ hmi, parseFixed_pad2_nil _ hs,
      expectChar_cons, Option.bind]
  · simp [PyDatetime.fromisoformatChars, PyDatetime.isoformatChars, hz,
      parseFixed_pad4 _ hy, parseFixed_pad2 _ hmo, parseFixed_pad2 _ hday,
      parseFixed_pad2 _ hh, parseFixed_pad2 _ hmi, parseFixed_pad2 _ hs,
      parseFixed_pad6_nil _ hus, expectChar_cons, Option.bind]

/- ===================== content model theorems ===================== -/

theorem ofValue_value (c : CategoryType) : CategoryType.ofValue c.value = some c := by
  cases c <;> rfl

/-- C3 (amended): the serialize/deserialize pair the code defines round-trips
for every valid `ContentItem`: `ContentItem.from_dict (ContentItem.to_dict x)
= x`, with the category serialized as its display string and the datetimes as
ISO-8601 strings.  (`CollectionResult` has a serializer only; see
`C3_counterexample`.) -/
theorem C3_contentItem_roundtrip (x : ContentItem) (hx : x.validB = true) :
    ContentItem.from_dict (ContentItem.to_dict x) = .ok x := by
  simp only [ContentItem.validB, Bool.and_eq_true, decide_eq_true_eq, Bool.or_eq_true] at hx
  obtain ⟨⟨⟨⟨ht, hu⟩, ha⟩, hc⟩, hp⟩ := hx
  have hT : ¬(x.title = "" ∨ pyStrip x.title = "") := by
    rintro (h | h)
    · exact ht (by rw [h]; decide)
    · exact ht h
  have hU : ¬(x.url = "" ∨
      ¬(pyStartsWith x.url "http://" = true ∨ pyStartsWith x.url "https://" = true)) := by
    rintro (h | h)
    · rw [h] at hu
      rcases hu with h' | h' <;> exact absurd h' (by decide)
    · exact h hu
  have hA : ¬(x.author_name = "" ∨ pyStrip x.author_name = "") := by
    rintro (h | h)
    · exact ha (by rw [h]; decide)
    · exact ha h
  have hmk : mkContentItem x.title x.url x.author_name x.author_url (.enum x.category)
      x.description x.publish_date x.thumbnail_url x.cover_image_url x.images x.duration
      x.views x.tags x.collected_at x.content_id = .ok x := by
    unfold mkContentItem
    rw [if_neg hT, if_neg hU, if_neg hA]
  unfold ContentItem.from_dict ContentItem.to_dict
  simp only [ofValue_value]
  cases hpd : x.publish_date with
  | none =>
    simp only [hpd, Option.map_none', fromisoformat_isoformat _ hc]
    rw [← hpd]
    exact hmk
  | some d =>
    have hd : d.validB = true := by rw [hpd] at hp; exact hp
    simp only [hpd, Option.map_some', fromisoformat_isoformat _ hd,
      fromisoformat_isoformat _ hc]
    rw [← hpd]
    exact hmk

/-- Witness: the round-trip law evaluated at the concrete valid item. -/
theorem C3_contentItem_roundtrip_witness :
    itemEx.validB = true ∧ ContentItem.from_dict (ContentItem.to_dict itemEx) = .ok itemEx :=
  ⟨by decide, C3_contentItem_roundtrip itemEx (by decide)⟩

/-- C3 (counterexample): the claim's round-trip law fails for
`CollectionResult`.  The code has no deserializer for it: the serialized
mapping of the concrete `resultEx` carries the derived key `total_items`,
which is not an accepted constructor parameter, so the `cls(**data)`
construction used for deserialization elsewhere in the file
(`ContentItem.from_dict`) would raise `TypeError` here — there is no
function in the source under which `deserialize(serialize(resultEx))` can
yield `resultEx`. -/
theorem C3_counterexample :
    (CollectionResult.to_dict resultEx).total_items = 1 ∧
    "total_items" ∈ collectionResultToDictKeys ∧
    "total_items" ∉ collectionResultFieldNames := by
  refine ⟨rfl, by decide, by decide⟩

/-- C5 (amended): `ContentItem` construction succeeds exactly when the title
is non-blank, the url starts with `http://` or `https://`, and the author
name is non-blank — otherwise `__post_init__` raises a `ValueError` naming
the offending field; `CollectionResult` defines no validation, so any field
combination constructs (see `C5_counterexample`). -/
theorem C5_contentItem_validation (title url author_name author_url : String)
    (c : CategoryType) (description : String) (publish_date : Option PyDatetime)
    (thumbnail_url cover_image_url : Option String) (images : List String)
    (duration : Option String) (views : Option Int) (tags : List String)
    (collected_at : PyDatetime) (content_id : Option String) :
    (∃ x, mkContentItem title url author_name author_url (.enum c) description publish_date
        thumbnail_url cover_image_url images duration views tags collected_at content_id =
        .ok x) ↔
      (pyStrip title ≠ "" ∧
        (pyStartsWith url "http://" = true ∨ pyStartsWith url "https://" = true) ∧
        pyStrip author_name ≠ "") := by
  unfold mkContentItem
  by_cases h1 : title = "" ∨ pyStrip title = ""
  · rw [if_pos h1]
    constructor
    · rintro ⟨x, hx⟩; cases hx
    · rintro ⟨ht, -, -⟩
      rcases h1 with h | h
      · exact absurd (by rw [h]; decide) ht
      · exact absurd h ht
  · rw [if_neg h1]
    have ht : pyStrip title ≠ "" := fun h => h1 (Or.inr h)
    by_cases h2 : url = "" ∨
        ¬(pyStartsWith url "http://" = true ∨ pyStartsWith url "https://" = true)
    · rw [if_pos h2]
      constructor
      · rintro ⟨x, hx⟩; cases hx
      · rintro ⟨-, hu, -⟩
        rcases h2 with h | h
        · rw [h] at hu
          rcases hu with h' | h' <;> exact absurd h' (by decide)
        · exact (h hu).elim
    · rw [if_neg h2]
      have hu : pyStartsWith url "http://" = true ∨ pyStartsWith url "https://" = true := by
        by_contra h
        exact h2 (Or.inr h)
      by_cases h3 : author_name = "" ∨ pyStrip author_name = ""
      · rw [if_pos h3]
        constructor
        · rintro ⟨x, hx⟩; cases hx
        · rintro ⟨-, -, ha⟩
          rcases h3 with h | h
          · exact absurd (by rw [h]; decide) ha
          · exact absurd h ha
      · rw [if_neg h3]
        have ha : pyStrip author_name ≠ "" := fun h => h3 (Or.inr h)
        exact ⟨fun _ => ⟨ht, hu, ha⟩, fun _ => ⟨_, rfl⟩⟩

/-- C5 (counterexample): the concrete `badResult` — `success = False`, a
non-empty `items` list, no `error_message` — violates the §3 invariants, yet
`CollectionResult` construction succeeds (the dataclass has no
`__post_init__`), contradicting the claim that such a construction fails with
a validation error. -/
theorem C5_counterexample :
    badResult.success = false ∧ badResult.items.length = 1 ∧ badResult.error_message = none := by
  decide

/- ===================== collector theorems ===================== -/

theorem length_filterMap_take_le {α β : Type} (f : α → Option β) (l : List α) (n : Nat) :
    ((l.take n).filterMap f).length ≤ n :=
  le_trans (List.length_filterMap_le _ _) (List.length_take_le _ _)

/-- C4 (amended): when a feed yields entries but zero entries survive
mapping, the news and podcast collectors return the failed "no valid items"
result; the YouTube collector instead returns a successful result with an
empty item list (see `C4_counterexample`). -/
theorem C4_no_valid_items (author : Author) (feed : Feed) (max_items : Nat)
    (now : PyDatetime) (hne : feed.entries ≠ [])
    (hnews : ∀ e ∈ feed.entries, news_parse_entry author e now = none)
    (hpod : ∀ e ∈ feed.entries, podcast_parse_entry author feed e now = none) :
    news_collect author (.ok feed) max_items now =
      create_error_result author "未能解析任何有效的新闻条目" now ∧
    podcast_collect author (.ok feed) max_items now =
      create_error_result author "未能解析任何有效的 Podcast 条目" now := by
  have hne' : feed.entries.isEmpty = false := by
    cases h : feed.entries with
    | nil => exact absurd h hne
    | cons a l => rfl
  have hnil1 : (feed.entries.take max_items).filterMap
      (fun e => news_parse_entry author e now) = [] := by
    rw [List.filterMap_eq_nil_iff]
    intro e he
    exact hnews e (List.mem_of_mem_take he)
  have hnil2 : (feed.entries.take max_items).filterMap
      (fun e => podcast_parse_entry author feed e now) = [] := by
    rw [List.filterMap_eq_nil_iff]
    intro e he
    exact hpod e (List.mem_of_mem_take he)
  constructor
  · simp [news_collect, hne', hnil1]
  · simp [podcast_collect, hne', hnil2]

/-- Witness: the amended C4 statement at a concrete one-entry feed whose
entry has no title. -/
theorem C4_no_valid_items_witness :
    news_collect authorNewsEx (.ok noTitleFeed) 10 nowEx =
      create_error_result authorNewsEx "未能解析任何有效的新闻条目" nowEx ∧
    podcast_collect authorNewsEx (.ok noTitleFeed) 10 nowEx =
      create_error_result authorNewsEx "未能解析任何有效的 Podcast 条目" nowEx :=
  C4_no_valid_items authorNewsEx noTitleFeed 10 nowEx (by decide) (by decide) (by decide)

/-- C4 (counterexample): on a feed with one entry that fails mapping (no
title), `YouTubeCollector.collect` returns a *successful* result with an
empty item list — not the failed "no valid items" result the claim asserts
for every variant. -/
theorem C4_counterexample : c4YtResult.success = true ∧ c4YtResult.items = [] := by
  decide

/-- C7 (amended): the news and podcast collectors share one description
policy — richest field (summary, then description, then content body),
html-stripped, whitespace-stripped, truncated at 500 characters with a
trailing `...` (so the result never exceeds 503 characters).  The YouTube
collector does not follow it (see `C7_counterexample`). -/
theorem C7_uniform_news_podcast :
    (∀ e : Entry, news_entry_description e = podcast_entry_description e) ∧
    (∀ e : Entry, (news_entry_description e).length ≤ 503) := by
  have key : ∀ s : String, (news_clean_description s).length ≤ 503 := by
    intro s
    unfold news_clean_description
    by_cases h : s = ""
    · rw [if_pos h, h]
      decide
    · rw [if_neg h]
      simp only []
      by_cases hlen : (pyStrip (bs4_get_text s)).length > 500
      · rw [if_pos hlen]
        have h1 : (String.mk ((pyStrip (bs4_get_text s)).data.take 500) ++ "...").length =
            ((pyStrip (bs4_get_text s)).data.take 500).length + 3 := by
          rw [String.length_append]
          rfl
        have h2 : ((pyStrip (bs4_get_text s)).data.take 500).length ≤ 500 :=
          List.length_take_le _ _
        omega
      · rw [if_neg hlen]
        omega
  exact ⟨fun e => rfl, fun e => key (news_pick_description e)⟩

set_option maxRecDepth 100000 in
/-- C7 (counterexample): on a concrete entry whose summary is 501 plain
characters, the YouTube collector keeps the full 501-character summary as the
description (no truncation, no ellipsis marker), while the news collector
truncates it to 500 characters plus `...` — so the claimed uniform policy
does not hold for the video variant. -/
theorem C7_counterexample :
    (youtube_parse_entry authorEx longEntry nowEx).map (fun i => i.description.length) =
      some 501 ∧
    (news_parse_entry authorNewsEx longEntry nowEx).map (fun i => i.description) =
      some (String.mk (List.replicate 500 'a') ++ "...") := by
  constructor
  · decide
  · decide

/-- C8: every collector variant is total over every fetch outcome and caps
its output: the returned item list never exceeds `max_items`; a whole-fetch
failure (the `.raise` outcome) becomes a failed result carrying a
descriptive message, and an unresolved feed url likewise yields a failed
result rather than an exception.  Individually unmappable entries are
dropped by `filterMap` inside each `collect` without failing the call. -/
theorem C8_collect_safety (author : Author) (rss_url : Option String)
    (fetch : FetchOutcome) (max_items : Nat) (now : PyDatetime) :
    (youtube_collect author rss_url fetch max_items now).items.length ≤ max_items ∧
    (news_collect author fetch max_items now).items.length ≤ max_items ∧
    (podcast_collect author fetch max_items now).items.length ≤ max_items ∧
    (∀ msg, news_collect author (.raise msg) max_items now =
      create_error_result author ("采集失败: " ++ msg) now) ∧
    (∀ msg, podcast_collect author (.raise msg) max_items now =
      create_error_result author ("采集失败: " ++ msg) now) ∧
    (∀ msg u, youtube_collect author (some u) (.raise msg) max_items now =
      create_error_result author ("采集失败: " ++ msg) now) ∧
    youtube_collect author none fetch max_items now =
      create_error_result author "无法获取频道ID，请检查URL格式" now := by
  refine ⟨?_, ?_, ?_, fun msg => rfl, fun msg => rfl, fun msg u => rfl, rfl⟩
  · cases rss_url with
    | none => exact Nat.zero_le _
    | some u =>
      cases fetch with
      | raise msg => exact Nat.zero_le _
      | ok feed =>
        by_cases h : feed.entries.isEmpty
        · simp [youtube_collect, h, create_error_result]
        · simp only [youtube_collect, Bool.not_eq_true] at h ⊢
          rw [if_neg (by simp [h])]
          exact length_filterMap_take_le _ _ _
  · cases fetch with
    | raise msg => exact Nat.zero_le _
    | ok feed =>
      by_cases h : feed.entries.isEmpty
      · simp [news_collect, h, create_error_result]
      · simp only [news_collect, Bool.not_eq_true] at h ⊢
        rw [if_neg (by simp [h])]
        by_cases h2 : ((feed.entries.take max_items).filterMap
            (fun e => news_parse_entry author e now)).isEmpty
        · rw [if_pos h2]
          exact Nat.zero_le _
        · rw [if_neg h2]
          exact length_filterMap_take_le _ _ _
  · cases fetch with
    | raise msg => exact Nat.zero_le _
    | ok feed =>
      by_cases h : feed.entries.isEmpty
      · simp [podcast_collect, h, create_error_result]
      · simp only [podcast_collect, Bool.not_eq_true] at h ⊢
        rw [if_neg (by simp [h])]
        by_cases h2 : ((feed.entries.take max_items).filterMap
            (fun e => podcast_parse_entry author feed e now)).isEmpty
        · rw [if_pos h2]
          exact Nat.zero_le _
        · rw [if_neg h2]
          exact length_filterMap_take_le _ _ _

/-- C6: `collect_all` maps the registry's collectors, in order, to exactly
one result each: the returned list has one entry per collector, a returned
result is passed through at its author's position, an exception escaping a
collector is converted into a failed result for that author, and changing
one author's outcome never changes any other position's result. -/
theorem C6_collect_all_isolation (cs : List CollectorEntry) (now : PyDatetime) :
    (collect_all cs now).length = cs.length ∧
    (∀ (i : Nat) (c : CollectorEntry) (r : CollectionResult),
      cs[i]? = some c → c.call = .ok r → (collect_all cs now)[i]? = some r) ∧
    (∀ (i : Nat) (c : CollectorEntry) (e : String),
      cs[i]? = some c → c.call = .exn e →
      (collect_all cs now)[i]? = some
        { author_name := c.author.name, author_url := c.author.url,
          category := c.author.category, success := false, items := [],
          error_message := some e, collected_at := now }) ∧
    (∀ (i : Nat) (c' : CollectorEntry) (j : Nat), j ≠ i →
      (collect_all (cs.set i c') now)[j]? = (collect_all cs now)[j]?) := by
  refine ⟨List.length_map _ _, ?_, ?_, ?_⟩
  · intro i c r hc hr
    rw [collect_all, List.getElem?_map, hc, Option.map_some', hr]
  · intro i c e hc he
    rw [collect_all, List.getElem?_map, hc, Option.map_some', he]
  · intro i c' j hji
    rw [collect_all, collect_all, List.getElem?_map, List.getElem?_map,
      List.getElem?_set_ne (fun h => hji h.symm)]

/-- Witness: a two-collector run in which the second collector raises. -/
theorem C6_collect_all_witness :
    (collect_all csEx nowEx).length = 2 ∧
    (collect_all csEx nowEx)[0]? = some resultEx ∧
    (collect_all csEx nowEx)[1]? = some
      { author_name := authorNewsEx.name, author_url := authorNewsEx.url,
        category := authorNewsEx.category, success := false, items := [],
        error_message := some "boom", collected_at := nowEx } := by
  refine ⟨(C6_collect_all_isolation csEx nowEx).1, ?_, ?_⟩
  · exact (C6_collect_all_isolation csEx nowEx).2.1 0 _ resultEx rfl rfl
  · exact (C6_collect_all_isolation csEx nowEx).2.2.1 1 _ "boom" rfl rfl

/- ===================== snapshot merge lemmas ===================== -/

theorem mergeStep_no_trigger (oca : String) (acc : SnapshotD × List String) (r : ResultD)
    (h : ¬(r.author_name ∈ acc.2 ∧ r.success = true)) :
    mergeStep oca acc r = acc := by
  unfold mergeStep
  rw [if_neg h]

theorem foldl_mergeStep_no_trigger (oca : String) (rs : List ResultD) :
    ∀ acc : SnapshotD × List String,
      (∀ r ∈ rs, ¬(r.author_name ∈ acc.2 ∧ r.success = true)) →
      rs.foldl (mergeStep oca) acc = acc := by
  induction rs with
  | nil => intro acc _; rfl
  | cons r rs ih =>
    intro acc h
    rw [List.foldl_cons, mergeStep_no_trigger oca acc r (h r (List.mem_cons_self _ _))]
    exact ih acc (fun x hx => h x (List.mem_cons_of_mem _ hx))

theorem processOld_nil_failed (ld : SnapshotD) (old : SnapshotD) :
    processOld ld [] old = (ld, []) := by
  unfold processOld
  exact foldl_mergeStep_no_trigger _ _ (ld, []) (by intro r _; simp)

theorem mergeLoop_nil_failed (ld : SnapshotD) (olds : List (Option SnapshotD)) :
    mergeLoop ld [] olds = ld := by
  cases olds with
  | nil => rfl
  | cons o rest => simp [mergeLoop]

theorem mergeLoop_skip_none (ld : SnapshotD) (failed : List String)
    (rest : List (Option SnapshotD)) :
    mergeLoop ld failed (none :: rest) = mergeLoop ld failed rest := by
  by_cases h : failed.isEmpty
  · have he : failed = [] := List.isEmpty_iff.mp h
    subst he
    rw [mergeLoop_nil_failed, mergeLoop_nil_failed]
  · simp [mergeLoop, h]

theorem mem_foldl_mergeStep (oca : String) (y : ResultD) :
    ∀ (rs : List ResultD) (acc : SnapshotD × List String),
      (∀ r ∈ rs, r.author_name = y.author_name → r.success = false) →
      y ∈ acc.1.results →
      y ∈ (rs.foldl (mergeStep oca) acc).1.results := by
  intro rs
  induction rs with
  | nil => intro acc _ hy; exact hy
  | cons r rs ih =>
    intro acc hno hy
    rw [List.foldl_cons]
    apply ih (mergeStep oca acc r) (fun x hx h => hno x (List.mem_cons_of_mem _ hx) h)
    unfold mergeStep
    by_cases hc : r.author_name ∈ acc.2 ∧ r.success = true
    · rw [if_pos hc]
      have hne : y.author_name ≠ r.author_name := by
        intro he
        have hf := hno r (List.mem_cons_self _ _) he.symm
        rw [hf] at hc
        exact Bool.false_ne_true hc.2
      refine List.mem_append_left _ (List.mem_filter.mpr ⟨hy, ?_⟩)
      simpa [bne_iff_ne] using hne
    · rw [if_neg hc]
      exact hy

theorem mem_mergeLoop (y : ResultD) :
    ∀ (olds : List (Option SnapshotD)) (ld : SnapshotD) (failed : List String),
      (∀ o ∈ olds, ∀ r ∈ optResults o, r.author_name = y.author_name → r.success = false) →
      y ∈ ld.results →
      y ∈ (mergeLoop ld failed olds).results := by
  intro olds
  induction olds with
  | nil => intro ld failed _ hy; exact hy
  | cons o rest ih =>
    intro ld failed hno hy
    unfold mergeLoop
    by_cases he : failed.isEmpty
    · rw [if_pos he]
      exact hy
    · rw [if_neg he]
      cases o with
      | none =>
        exact ih ld failed (fun o' ho' => hno o' (List.mem_cons_of_mem _ ho')) hy
      | some s =>
        have hs : ∀ r ∈ s.results, r.author_name = y.author_name → r.success = false :=
          fun r hr => hno (some s) (List.mem_cons_self _ _) r hr
        exact ih _ _ (fun o' ho' => hno o' (List.mem_cons_of_mem _ ho'))
          (mem_foldl_mergeStep s.collected_at y s.results (ld, failed) hs hy)

/-- C2: an author whose baseline entry failed and for whom no readable older
snapshot holds a successful result keeps that very entry — error message and
all — in the merged view; and a missing or unreadable historical snapshot
(`none`) contributes nothing: the walk simply continues with the remaining
older snapshots. -/
theorem C2_no_backfill (b : SnapshotD) (olds : List (Option SnapshotD)) (yFail : ResultD)
    (hmem : yFail ∈ b.results) (hfail : yFail.success = false)
    (hno : ∀ o ∈ olds, ∀ r ∈ optResults o,
      r.author_name = yFail.author_name → r.success = false) :
    (∃ m, load_latest_data (some b :: olds) = some m ∧ yFail ∈ m.results ∧
      yFail.success = false) ∧
    (∀ (ld : SnapshotD) (failed : List String) (rest : List (Option SnapshotD)),
      mergeLoop ld failed (none :: rest) = mergeLoop ld failed rest) := by
  constructor
  · by_cases h : (failedAuthorsOf b.results).isEmpty
    · exact ⟨b, by simp [load_latest_data, h], hmem, hfail⟩
    · exact ⟨mergeLoop b (failedAuthorsOf b.results) olds, by simp [load_latest_data, h],
        mem_mergeLoop yFail olds b _ hno hmem, hfail⟩
  · intro ld failed rest
    exact mergeLoop_skip_none ld failed rest

/-- Witness: a baseline with a failed author Y, one unreadable snapshot and
one older snapshot in which Y also failed — Y's original failed entry
survives the merge. -/
theorem C2_no_backfill_witness :
    ∃ m, load_latest_data [some baseSnap, none, some oldFailSnap] = some m ∧
      yFailD ∈ m.results ∧ yFailD.success = false :=
  (C2_no_backfill baseSnap [none, some oldFailSnap] yFailD (by decide) (by decide)
    (by decide)).1

theorem mergeLoop_cons_none (ld : SnapshotD) (failed : List String)
    (rest : List (Option SnapshotD)) :
    mergeLoop ld failed (none :: rest) =
      if failed.isEmpty then ld else mergeLoop ld failed rest := rfl

theorem mergeLoop_cons_some (ld : SnapshotD) (failed : List String) (s : SnapshotD)
    (rest : List (Option SnapshotD)) :
    mergeLoop ld failed (some s :: rest) =
      if failed.isEmpty then ld
      else mergeLoop (processOld ld failed s).1 (processOld ld failed s).2 rest := rfl

theorem failedAuthorsOf_single (pre post : List ResultD) (yFail : ResultD)
    (hYfail : yFail.success = false)
    (hok : ∀ r ∈ pre ++ post, r.success = true) :
    failedAuthorsOf (pre ++ yFail :: post) = [yFail.author_name] := by
  unfold failedAuthorsOf
  have hpre : pre.filter (fun r => !r.success) = [] := by
    rw [List.filter_eq_nil_iff]
    intro r hr
    simp [hok r (List.mem_append_left _ hr)]
  have hpost : post.filter (fun r => !r.success) = [] := by
    rw [List.filter_eq_nil_iff]
    intro r hr
    simp [hok r (List.mem_append_right _ hr)]
  rw [List.filter_append, hpre, List.filter_cons]
  simp [hYfail, hpost]

theorem processOld_first_success (ld old : SnapshotD) (ha hb : List ResultD)
    (yHist : ResultD) (holdres : old.results = ha ++ yHist :: hb)
    (hsucc : yHist.success = true)
    (hha : ∀ r ∈ ha, ¬(r.author_name = yHist.author_name ∧ r.success = true)) :
    processOld ld [yHist.author_name] old =
      ({ ld with
          results := ld.results.filter (fun x => x.author_name != yHist.author_name) ++
            [{ yHist with from_history := some true, history_collected_at := some old.collected_at }],
          successful_authors := ld.successful_authors + 1,
          failed_authors := ld.failed_authors - 1,
          total_items := ld.total_items + yHist.items.length }, []) := by
  unfold processOld
  rw [holdres, List.foldl_append,
    foldl_mergeStep_no_trigger _ ha (ld, [yHist.author_name])
      (by intro r hr hc; exact hha r hr ⟨List.mem_singleton.mp hc.1, hc.2⟩),
    List.foldl_cons]
  have hstep : mergeStep old.collected_at (ld, [yHist.author_name]) yHist =
      ({ ld with
          results := ld.results.filter (fun x => x.author_name != yHist.author_name) ++
            [{ yHist with from_history := some true, history_collected_at := some old.collected_at }],
          successful_authors := ld.successful_authors + 1,
          failed_authors := ld.failed_authors - 1,
          total_items := ld.total_items + yHist.items.length }, []) := by
    unfold mergeStep
    rw [if_pos ⟨List.mem_singleton.mpr rfl, hsucc⟩]
    simp
  rw [hstep]
  exact foldl_mergeStep_no_trigger _ hb _ (by intro r hr; simp)

theorem mergeLoop_no_trigger_front (failed : List String) (hfa : failed ≠ []) :
    ∀ (olds1 : List (Option SnapshotD)) (ld : SnapshotD) (rest : List (Option SnapshotD)),
      (∀ o ∈ olds1, ∀ r ∈ optResults o, ¬(r.author_name ∈ failed ∧ r.success = true)) →
      mergeLoop ld failed (olds1 ++ rest) = mergeLoop ld failed rest := by
  intro olds1
  induction olds1 with
  | nil => intro ld rest _; rfl
  | cons o olds1 ih =>
    intro ld rest hno
    have hne : failed.isEmpty = false := by
      cases failed with
      | nil => exact absurd rfl hfa
      | cons a l => rfl
    rw [List.cons_append]
    cases o with
    | none =>
      rw [mergeLoop_cons_none, if_neg (by simp [hne])]
      exact ih ld rest (fun o' ho' => hno o' (List.mem_cons_of_mem _ ho'))
    | some s =>
      have hid : processOld ld failed s = (ld, failed) := by
        unfold processOld
        exact foldl_mergeStep_no_trigger _ _ (ld, failed)
          (fun r hr => hno (some s) (List.mem_cons_self _ _) r hr)
      rw [mergeLoop_cons_some, if_neg (by simp [hne])]
      simp only [hid]
      exact ih ld rest (fun o' ho' => hno o' (List.mem_cons_of_mem _ ho'))

/-- C1: when the baseline's only failed author is `yFail.author_name`, the
readable older snapshots before `old` hold no successful result for that
author, and inside `old` the first such result is `yHist`, the merged view
replaces the failed entry by `yHist` tagged `from_history = true` and
`history_collected_at = old.collected_at`, adds `yHist`'s item count to
`total_items`, moves one author from failed to successful — and the result
does not depend on the snapshots after `old` (the walk stops once no failed
author is pending). -/
theorem C1_backfill (b old : SnapshotD) (olds1 olds2 : List (Option SnapshotD))
    (pre post ha hb : List ResultD) (yFail yHist : ResultD)
    (hres : b.results = pre ++ yFail :: post)
    (hYfail : yFail.success = false)
    (hok : ∀ r ∈ pre ++ post, r.success = true ∧ r.author_name ≠ yFail.author_name)
    (holds1 : ∀ o ∈ olds1, ∀ r ∈ optResults o,
      ¬(r.author_name = yFail.author_name ∧ r.success = true))
    (holdres : old.results = ha ++ yHist :: hb)
    (hname : yHist.author_name = yFail.author_name) (hsucc : yHist.success = true)
    (hha : ∀ r ∈ ha, ¬(r.author_name = yFail.author_name ∧ r.success = true)) :
    load_latest_data (some b :: (olds1 ++ some old :: olds2)) =
      some { b with
        results := (pre ++ post) ++
          [{ yHist with from_history := some true, history_collected_at := some old.collected_at }],
        successful_authors := b.successful_authors + 1,
        failed_authors := b.failed_authors - 1,
        total_items := b.total_items + yHist.items.length } ∧
    load_latest_data (some b :: (olds1 ++ some old :: olds2)) =
      load_latest_data (some b :: (olds1 ++ [some old])) := by
  have hfailed : failedAuthorsOf b.results = [yFail.author_name] := by
    rw [hres]
    exact failedAuthorsOf_single pre post yFail hYfail (fun r hr => (hok r hr).1)
  have hfilter : b.results.filter (fun x => x.author_name != yFail.author_name) =
      pre ++ post := by
    have h1 : pre.filter (fun x => x.author_name != yFail.author_name) = pre :=
      List.filter_eq_self.mpr (fun r hr => by
        simpa [bne_iff_ne] using (hok r (List.mem_append_left _ hr)).2)
    have h2 : post.filter (fun x => x.author_name != yFail.author_name) = post :=
      List.filter_eq_self.mpr (fun r hr => by
        simpa [bne_iff_ne] using (hok r (List.mem_append_right _ hr)).2)
    rw [hres, List.filter_append, h1, List.filter_cons]
    simp [h2]
  have hp := processOld_first_success b old ha hb yHist holdres hsucc
    (by intro r hr hc; exact hha r hr ⟨hc.1.trans hname, hc.2⟩)
  rw [hname] at hp
  have key : ∀ ol2 : List (Option SnapshotD),
      load_latest_data (some b :: (olds1 ++ some old :: ol2)) =
        some { b with
          results := (pre ++ post) ++
            [{ yHist with from_history := some true, history_collected_at := some old.collected_at }],
          successful_authors := b.successful_authors + 1,
          failed_authors := b.failed_authors - 1,
          total_items := b.total_items + yHist.items.length } := by
    intro ol2
    unfold load_latest_data
    simp only [hfailed, List.isEmpty_cons, Bool.false_eq_true, if_false]
    rw [mergeLoop_no_trigger_front [yFail.author_name] (by simp) olds1 b (some old :: ol2)
      (by intro o ho r hr hc; exact holds1 o ho r hr ⟨List.mem_singleton.mp hc.1, hc.2⟩)]
    rw [mergeLoop_cons_some, if_neg (by simp)]
    simp only [hp]
    rw [mergeLoop_nil_failed, hfilter, hname]
  exact ⟨key olds2, (key olds2).trans (key []).symm⟩

/-- Witness: the spec's concrete scenario — baseline `{X: success(2 items),
Y: failed}`, older snapshot `{Y: success(3 items)}` — merged: Y present with
3 items from history, 2 successful / 0 failed authors, 5 total items. -/
theorem C1_backfill_witness :
    (load_latest_data [some baseSnap, some oldSnap]).map
      (fun m => (m.total_items, m.successful_authors, m.failed_authors,
        authorNames m.results,
        m.results.map (fun r => (r.from_history, r.history_collected_at, r.items.length)))) =
      some (5, 2, 0, ["X", "Y"],
        [(none, none, 2), (some true, some "2025-11-09T08:00:00", 3)]) := by
  have h := (C1_backfill baseSnap oldSnap [] [] [xSuccD] [] [] [] yFailD yHistD rfl
    (by decide) (by decide) (by decide) rfl (by decide) (by decide) (by decide)).1
  rw [List.nil_append] at h
  rw [h]
  rfl

/- ===================== merge counter invariant (C10) ===================== -/

theorem authorNames_filter (rs : List ResultD) (a : String) :
    authorNames (rs.filter (fun x => x.author_name != a)) =
      (authorNames rs).filter (fun n => n != a) := by
  unfold authorNames
  rw [List.filter_map]
  rfl

theorem filter_ne_append_perm {α : Type} [DecidableEq α] (l : List α) (a : α)
    (hnd : l.Nodup) (ha : a ∈ l) :
    (l.filter (fun x => x != a) ++ [a]).Perm l := by
  induction l with
  | nil => cases ha
  | cons x xs ih =>
    rcases List.mem_cons.mp ha with h | h
    · subst h
      have hx : (a != a) = false := by simp
      have hxs : xs.filter (fun y => y != a) = xs := by
        apply List.filter_eq_self.mpr
        intro b hb
        have hba : b ≠ a := by
          intro he
          exact (List.nodup_cons.mp hnd).1 (he ▸ hb)
        simpa [bne_iff_ne] using hba
      rw [List.filter_cons, hx]
      simp only [Bool.false_eq_true, if_false, hxs]
      exact List.perm_append_singleton a xs
    · have hxa : (x != a) = true := by
        have hne : x ≠ a := by
          intro he
          exact (List.nodup_cons.mp hnd).1 (he ▸ h)
        simpa [bne_iff_ne] using hne
      rw [List.filter_cons, hxa]
      simp only [if_true, List.cons_append]
      exact List.Perm.cons x (ih (List.nodup_cons.mp hnd).2 h)

theorem mergeStep_inv (b : SnapshotD) (oca : String) (acc : SnapshotD × List String)
    (r : ResultD) (h : MergeInv b acc) : MergeInv b (mergeStep oca acc r) := by
  obtain ⟨hperm, hnd, htot, hsum, hsub⟩ := h
  unfold mergeStep
  by_cases hc : r.author_name ∈ acc.2 ∧ r.success = true
  · rw [if_pos hc]
    have hin : r.author_name ∈ authorNames acc.1.results := hsub _ hc.1
    have hnames : authorNames
        (acc.1.results.filter (fun x => x.author_name != r.author_name) ++
          [{ r with from_history := some true, history_collected_at := some oca }]) =
        (authorNames acc.1.results).filter (fun n => n != r.author_name) ++
          [r.author_name] := by
      show authorNames _ = _
      unfold authorNames
      rw [List.map_append]
      have := authorNames_filter acc.1.results r.author_name
      unfold authorNames at this
      rw [this]
      rfl
    have hstep_perm : (authorNames
        (acc.1.results.filter (fun x => x.author_name != r.author_name) ++
          [{ r with from_history := some true, history_collected_at := some oca }])).Perm
        (authorNames acc.1.results) := by
      rw [hnames]
      exact filter_ne_append_perm (authorNames acc.1.results) r.author_name hnd hin
    refine ⟨hstep_perm.trans hperm, (hstep_perm.nodup_iff).mpr hnd, htot, ?_, ?_⟩
    · show acc.1.successful_authors + 1 + (acc.1.failed_authors - 1) = _
      omega
    · intro a ha
      have hmem := List.mem_filter.mp ha
      rw [hnames]
      exact List.mem_append_left _ (List.mem_filter.mpr ⟨hsub _ hmem.1, hmem.2⟩)
  · rw [if_neg hc]
    exact ⟨hperm, hnd, htot, hsum, hsub⟩

theorem foldl_mergeStep_inv (b : SnapshotD) (oca : String) :
    ∀ (rs : List ResultD) (acc : SnapshotD × List String), MergeInv b acc →
      MergeInv b (rs.foldl (mergeStep oca) acc) := by
  intro rs
  induction rs with
  | nil => intro acc h; exact h
  | cons r rs ih =>
    intro acc h
    rw [List.foldl_cons]
    exact ih _ (mergeStep_inv b oca acc r h)

theorem mergeLoop_inv (b : SnapshotD) :
    ∀ (olds : List (Option SnapshotD)) (ld : SnapshotD) (failed : List String),
      MergeInv b (ld, failed) →
      ∃ failed', MergeInv b (mergeLoop ld failed olds, failed') := by
  intro olds
  induction olds with
  | nil => intro ld failed h; exact ⟨failed, h⟩
  | cons o rest ih =>
    intro ld failed h
    by_cases he : failed.isEmpty
    · cases o with
      | none =>
        rw [mergeLoop_cons_none, if_pos he]
        exact ⟨failed, h⟩
      | some s =>
        rw [mergeLoop_cons_some, if_pos he]
        exact ⟨failed, h⟩
    · cases o with
      | none =>
        rw [mergeLoop_cons_none, if_neg he]
        exact ih ld failed h
      | some s =>
        rw [mergeLoop_cons_some, if_neg he]
        exact ih _ _ (foldl_mergeStep_inv b s.collected_at s.results (ld, failed) h)

/-- C10: for a baseline whose results carry pairwise-distinct author names,
the merged view keeps exactly one result per baseline author (the author-name
list stays a duplicate-free permutation of the baseline's), never changes
`total_authors`, preserves `successful_authors + failed_authors` (each
backfill is a +1/−1 transfer), and hence preserves the bookkeeping equation
`successful_authors + failed_authors = total_authors` whenever the baseline
satisfies it. -/
theorem C10_merge_counters (b : SnapshotD) (olds : List (Option SnapshotD))
    (hnd : (authorNames b.results).Nodup) :
    ∃ m, load_latest_data (some b :: olds) = some m ∧
      m.total_authors = b.total_authors ∧
      (authorNames m.results).Perm (authorNames b.results) ∧
      (authorNames m.results).Nodup ∧
      m.successful_authors + m.failed_authors = b.successful_authors + b.failed_authors ∧
      (b.successful_authors + b.failed_authors = b.total_authors →
        m.successful_authors + m.failed_authors = m.total_authors) := by
  by_cases h : (failedAuthorsOf b.results).isEmpty
  · exact ⟨b, by simp [load_latest_data, h], rfl, List.Perm.refl _, hnd, rfl, fun hh => hh⟩
  · have hinv0 : MergeInv b (b, failedAuthorsOf b.results) := by
      refine ⟨List.Perm.refl _, hnd, rfl, rfl, ?_⟩
      intro a ha
      unfold failedAuthorsOf at ha
      obtain ⟨r, hr, hra⟩ := List.mem_map.mp ha
      exact List.mem_map.mpr ⟨r, (List.mem_filter.mp hr).1, hra⟩
    obtain ⟨failed', hinv⟩ := mergeLoop_inv b olds b (failedAuthorsOf b.results) hinv0
    obtain ⟨hperm, hnd', htot, hsum, -⟩ := hinv
    refine ⟨mergeLoop b (failedAuthorsOf b.results) olds, by simp [load_latest_data, h],
      htot, hperm, hnd', hsum, ?_⟩
    intro hh
    rw [hsum, hh, htot]

/-- Witness: the counter invariant at the concrete two-author store. -/
theorem C10_merge_counters_witness :
    ∃ m, load_latest_data [some baseSnap, some oldSnap] = some m ∧
      m.total_authors = baseSnap.total_authors ∧
      (authorNames m.results).Perm (authorNames baseSnap.results) ∧
      (authorNames m.results).Nodup ∧
      m.successful_authors + m.failed_authors =
        baseSnap.successful_authors + baseSnap.failed_authors ∧
      (baseSnap.successful_authors + baseSnap.failed_authors = baseSnap.total_authors →
        m.successful_authors + m.failed_authors = m.total_authors) :=
  C10_merge_counters baseSnap [some oldSnap] (by decide)

/- ===================== read view (C9) ===================== -/

/-- C9 (code behavior at the failing input): for a merged view whose
successful result holds two items with `publish_date = null` — exactly what
`DataStorage` writes for items lacking a date — the flatten-and-sort step of
`/` and `/api/items` raises `TypeError` (Python compares the two `None` sort
keys), instead of placing the dateless items last as the claim states. -/
theorem C9_sort_raises : api_items_items [some snapC9] = .error () := rfl
